import Mathlib

/-!
Shallow embedding of ptypy/core/data.py (the distributed frame loader /
aggregator of a ptychography data container).

Conventions of the embedding:
* numpy arrays of rank 0..3 are modelled by the inductive `NArr` (the module's
  data model is explicitly at most 3-D: scan_info.shape is the 3-tuple
  (N, H, W), frames are 2-D, and the slice tuples built by DataScan.load have
  at most three components);
* Python exceptions are modelled by the error type `PyErr` carried in
  `Except PyErr _`; fallible statements are translated statement by statement;
* the external collaborators (io.h5read on files, parallel.loadmanager,
  os.path.exists, raw_input) enter as explicit parameters: a loader function,
  the externally computed per-rank assignment, a Bool for file existence and a
  String for the user's answer;
* array values are integers (the claims never depend on float arithmetic).
-/

/-- Python exceptions (and one fatal condition, see `probe_noalt`) raised by the
translated code paths. -/
inductive PyErr
  | keyError
  | indexError
  | typeError
  | attributeError
  | assertionError
  | nameError
  | sliceExhausted
  | runtimeNoData
  | runtimeInconsistentList
  | runtimeShapeMismatch
  | runtimeFileExists
  | runtimeCancelled
deriving DecidableEq

deriving instance DecidableEq for Except

/-- one component of a numpy basic/fancy slice tuple, as built by
DataScan.load: `slice(None)`, `slice(lo, hi)`, or an explicit tuple of frame
indices. -/
inductive SliceDim
  | all
  | rangeD (lo hi : ℤ)
  | idxs (l : List ℕ)
deriving DecidableEq

/-- clamp one bound of a Python slice to a sequence of length n
(negative values count from the end, out-of-range values saturate). -/
def pyBound (n : ℕ) (i : ℤ) : ℕ :=
  if i < 0 then ((n : ℤ) + i).toNat else min i.toNat n

/-- Python sequence slicing xs[lo:hi]. -/
def pySliceSeg (lo hi : ℤ) (xs : List α) : List α :=
  let a := pyBound xs.length lo
  let b := pyBound xs.length hi
  (xs.drop a).take (b - a)

/-- apply one slice component along one axis; fancy indexing out of range is an
error (none). -/
def applyDim (s : SliceDim) (xs : List α) : Option (List α) :=
  match s with
  | .all => some xs
  | .rangeD lo hi => some (pySliceSeg lo hi xs)
  | .idxs l => l.mapM (fun i => xs[i]?)

/-- a numpy array of rank 0, 1, 2 or 3 with integer entries. -/
inductive NArr
  | d0 (v : ℤ)
  | d1 (v : List ℤ)
  | d2 (v : List (List ℤ))
  | d3 (v : List (List (List ℤ)))
deriving DecidableEq

/-- a.ndim -/
def NArr.ndim : NArr → ℕ
  | .d0 _ => 0
  | .d1 _ => 1
  | .d2 _ => 2
  | .d3 _ => 3

/-- a.shape (arrays are kept rectangular by construction in all code paths). -/
def NArr.shape : NArr → List ℕ
  | .d0 _ => []
  | .d1 v => [v.length]
  | .d2 v => [v.length, (v.headD []).length]
  | .d3 v => [v.length, (v.headD []).length, ((v.headD []).headD []).length]

/-- a[k]: integer indexing along the first axis (rank-reducing);
IndexError when out of range or on a 0-d array. -/
def NArr.index : NArr → ℕ → Except PyErr NArr
  | .d0 _, _ => .error .indexError
  | .d1 v, k => match v[k]? with
    | some x => .ok (.d0 x)
    | none => .error .indexError
  | .d2 v, k => match v[k]? with
    | some x => .ok (.d1 x)
    | none => .error .indexError
  | .d3 v, k => match v[k]? with
    | some x => .ok (.d2 x)
    | none => .error .indexError

/-- a[slc] for a tuple slc of per-axis slice components; none models the
IndexError numpy raises when the tuple has more components than the array has
dimensions, or a fancy index is out of range.  Basic slices and index lists do
not reduce the rank. -/
def NArr.slice : NArr → List SliceDim → Option NArr
  | a, [] => some a
  | .d0 _, _ :: _ => none
  | .d1 v, [s] => (applyDim s v).map .d1
  | .d1 _, _ :: _ :: _ => none
  | .d2 v, [s1] => (applyDim s1 v).map .d2
  | .d2 v, [s1, s2] =>
    match applyDim s1 v with
    | none => none
    | some rows => (rows.mapM (applyDim s2)).map .d2
  | .d2 _, _ :: _ :: _ :: _ => none
  | .d3 v, [s1] => (applyDim s1 v).map .d3
  | .d3 v, [s1, s2] =>
    match applyDim s1 v with
    | none => none
    | some rows => (rows.mapM (applyDim s2)).map .d3
  | .d3 v, [s1, s2, s3] =>
    match applyDim s1 v with
    | none => none
    | some frames =>
      match frames.mapM (fun fr =>
        match applyDim s2 fr with
        | none => none
        | some rows => rows.mapM (applyDim s3)) with
      | none => none
      | some out => some (.d3 out)
  | .d3 _, _ :: _ :: _ :: _ :: _ => none

/-- np.ones(shape) / np.zeros(shape) for the 3-tuple scan_info.shape. -/
def NArr.fill (shape : ℕ × ℕ × ℕ) (v : ℤ) : NArr :=
  .d3 (List.replicate shape.1 (List.replicate shape.2.1 (List.replicate shape.2.2 v)))

/-- Python range(a, b) (as a list, this file models Python 2). -/
def pyRange (a b : ℕ) : List ℕ := List.range' a (b - a)

/-- scan_info fields the translated code paths consume (the full record has
many more, all opaque to the claims). -/
structure ScanInfo where
  shape : ℕ × ℕ × ℕ
  scan_label : String
  data_filename : Option String
  positions : Option (List (ℤ × ℤ))
deriving DecidableEq

/-- the loader closures attached by DataScan.set_source: key and optional
slice tuple to array, raising KeyError / IndexError / TypeError through
Except. -/
abbrev PyLoader := String → Option (List SliceDim) → Except PyErr NArr

/-- the loader attached by set_source when source is None (data.py lines
144-151): ones for the keys flat and mask, zeros for every other key,
optionally sliced. -/
def noneLoader (info : ScanInfo) (key : String) (slc : Option (List SliceDim)) :
    Except PyErr NArr :=
  let buf := if key = "flat" ∨ key = "mask" then NArr.fill info.shape 1
             else NArr.fill info.shape 0
  match slc with
  | none => .ok buf
  | some s =>
    match buf.slice s with
    | some r => .ok r
    | none => .error .indexError

/-- the loader attached by set_source when source is a dict (data.py lines
183-185): self.source[key] raises KeyError on a missing key, then the slice
access raises IndexError/TypeError on a mismatched slice.  The same key-to-
array-with-slice contract models the h5 file loader of lines 167-169. -/
def dictLoader (store : List (String × NArr)) (key : String)
    (slc : Option (List SliceDim)) : Except PyErr NArr :=
  match store.lookup key with
  | none => .error .keyError
  | some a =>
    match slc with
    | none => .ok a
    | some s =>
      match a.slice s with
      | some r => .ok r
      | none => .error .indexError

/-- probe_n_load (data.py lines 293-310) for calls with altkey = None.  Every
recursive call of the Python function leaves altkey at its default None, so the
general function is this one behind a first-call wrapper (`probe_n_load`).
`except (IndexError, TypeError)` retries with slc[1:]; on KeyError the result
is None; every other exception propagates.  When the slice is exhausted (empty
tuple) and the store still raises an index error, the Python code re-enters
itself with the same empty tuple forever and dies with a RecursionError; that
fatal outcome is modelled by the error value `sliceExhausted`. -/
def probe_noalt (loader : PyLoader) (key : String) :
    List SliceDim → Except PyErr (Option NArr)
  | [] =>
    match loader key (some []) with
    | .ok a => .ok (some a)
    | .error .indexError => .error .sliceExhausted
    | .error .typeError => .error .sliceExhausted
    | .error .keyError => .ok none
    | .error e => .error e
  | d :: rest =>
    match loader key (some (d :: rest)) with
    | .ok a => .ok (some a)
    | .error .indexError => probe_noalt loader key rest
    | .error .typeError => probe_noalt loader key rest
    | .error .keyError => .ok none
    | .error e => .error e

/-- probe_n_load (data.py lines 293-310).  `if key is None: return None`;
on success the array; on IndexError/TypeError a retry with the outermost slice
dimension dropped (altkey reverts to its default None in the recursive call);
on KeyError either None (no alternate key) or one retry with the alternate key
and the same slice (again with altkey = None below). -/
def probe_n_load (loader : PyLoader) (key : Option String) (slc : List SliceDim)
    (altkey : Option String) : Except PyErr (Option NArr) :=
  match key with
  | none => .ok none
  | some k =>
    match loader k (some slc) with
    | .ok a => .ok (some a)
    | .error .indexError =>
      match slc with
      | [] => .error .sliceExhausted
      | _ :: rest => probe_noalt loader k rest
    | .error .typeError =>
      match slc with
      | [] => .error .sliceExhausted
      | _ :: rest => probe_noalt loader k rest
    | .error .keyError =>
      match altkey with
      | none => .ok none
      | some ak => probe_noalt loader ak slc
    | .error e => .error e


/-- the MPIsplit parameter of DataScan.load: False, True, or an explicit index
list.  In the True case the per-rank index list is computed externally by
parallel.loadmanager.assign(idlist)[parallel.rank]; that external result enters
the embedding as the `assigned` payload. -/
inductive MPIsplitArg
  | off
  | auto (assigned : List ℕ)
  | explicitList (l : List ℕ)
deriving DecidableEq

/-- the index/frame_slice determination of DataScan.load (lines 235-253).
MPIsplit False: indices = range(first, last) and frame_slice = slice(None);
MPIsplit True: the externally assigned list must equal
range(indices[0], indices[-1]+1) -- the assert at line 246 raises
AssertionError otherwise, and indices[0] on an empty assignment raises
IndexError -- and frame_slice = slice(indices[0], indices[-1]+1);
explicit list: frame_slice = None. -/
def loadIndicesStage (first last : ℕ) :
    MPIsplitArg → Except PyErr (List ℕ × Option SliceDim)
  | .off => .ok (pyRange first last, some SliceDim.all)
  | .auto assigned =>
    match assigned with
    | [] => .error .indexError
    | i0 :: rest =>
      let iN := (i0 :: rest).getLastD 0
      if (i0 :: rest) = pyRange i0 (iN + 1) then
        .ok ((i0 :: rest), some (SliceDim.rangeD (i0 : ℤ) ((iN : ℤ) + 1)))
      else .error .assertionError
  | .explicitList l => .ok (l, none)

/-- int(np.ceil(x / 2.)) for an integer x, as an integer computation:
the ceiling of x/2 (proved equal to the rational ceiling in
npCeilHalf_eq_ceil). -/
def npCeilHalf (x : ℤ) : ℤ := -((-x) / 2)


/-- the ROI preparation of DataScan.load (lines 261-280).  Without a requested
ROI the crop is (slice(None), slice(None)) and asize = shape[1:].  With a
requested ROI of size roidim, the center defaults to dpsize // 2, and each axis
is cropped to [ceil(ctr - dim/2), ceil(ctr + dim/2)); asize = roidim. -/
def roiSliceStage (dpsize : ℕ × ℕ) (roidim roictr : Option (ℤ × ℤ)) :
    (ℤ × ℤ) × SliceDim × SliceDim :=
  match roidim with
  | none => (((dpsize.1 : ℤ), (dpsize.2 : ℤ)), SliceDim.all, SliceDim.all)
  | some rd =>
    let rc : ℤ × ℤ :=
      match roictr with
      | none => ((dpsize.1 : ℤ) / 2, (dpsize.2 : ℤ) / 2)
      | some c => c
    (rd,
     SliceDim.rangeD (npCeilHalf (2 * rc.1 - rd.1)) (npCeilHalf (2 * rc.1 + rd.1)),
     SliceDim.rangeD (npCeilHalf (2 * rc.2 - rd.2)) (npCeilHalf (2 * rc.2 + rd.2)))

/-- the four per-frame view lists of a DataScan. -/
structure FrameLists where
  datalist : List (Option NArr)
  masklist : List (Option NArr)
  flatlist : List (Option NArr)
  darklist : List (Option NArr)
deriving DecidableEq

/-- Python list item assignment l[i] = v (IndexError when out of range). -/
def pySetItem (l : List (Option NArr)) (i : ℕ) (v : Option NArr) :
    Except PyErr (List (Option NArr)) :=
  if i < l.length then .ok (l.set i v) else .error .indexError

/-- one iteration of the population loop of DataScan.load (lines 355-359) for
the enumerate pair (k, i):
datalist[i] = data[k] (TypeError when data is None);
masklist[i] = mask if mask.ndim == 2 else mask[k] (AttributeError when mask is
None); flatlist[i] = flat and darklist[i] = dark -- the source assigns the
whole flat/dark object unconditionally, the per-frame 3-D indexing is
commented out at lines 358-359. -/
def popStep (data mask dark flat : Option NArr) (st : FrameLists) (k i : ℕ) :
    Except PyErr FrameLists :=
  match data with
  | none => .error .typeError
  | some dArr =>
    match dArr.index k with
    | .error e => .error e
    | .ok dv =>
      match pySetItem st.datalist i (some dv) with
      | .error e => .error e
      | .ok dl =>
        match mask with
        | none => .error .attributeError
        | some mArr =>
          match (if mArr.ndim = 2 then Except.ok mArr else mArr.index k) with
          | .error e => .error e
          | .ok mv =>
            match pySetItem st.masklist i (some mv) with
            | .error e => .error e
            | .ok ml =>
              match pySetItem st.flatlist i flat with
              | .error e => .error e
              | .ok fl =>
                match pySetItem st.darklist i dark with
                | .error e => .error e
                | .ok kl => .ok ⟨dl, ml, fl, kl⟩

/-- the population loop over enumerate(indices). -/
def popLoop (data mask dark flat : Option NArr) :
    FrameLists → List (ℕ × ℕ) → Except PyErr FrameLists
  | st, [] => .ok st
  | st, (k, i) :: rest =>
    match popStep data mask dark flat st k i with
    | .error e => .error e
    | .ok stNew => popLoop data mask dark flat stNew rest

/-- lines 351-359: the four lists start as [None] * Nframes and are filled by
the loop over enumerate(indices). -/
def populate (data mask dark flat : Option NArr) (Nframes : ℕ)
    (indices : List ℕ) : Except PyErr FrameLists :=
  popLoop data mask dark flat
    ⟨List.replicate Nframes none, List.replicate Nframes none,
     List.replicate Nframes none, List.replicate Nframes none⟩
    indices.enum

/-- the state DataScan.load leaves behind on success. -/
structure LoadedScan where
  data : Option NArr
  mask : Option NArr
  dark : Option NArr
  flat : Option NArr
  datalist : List (Option NArr)
  masklist : List (Option NArr)
  flatlist : List (Option NArr)
  darklist : List (Option NArr)
  indices : List ℕ
  Nframes : ℕ
  frame_slice : Option SliceDim
  asize : ℤ × ℤ
deriving DecidableEq

/-- the composite slice of lines 283-288: the frame slice (or, for an explicit
index list, the tuple of indices) followed by the two ROI axis slices. -/
def buildSl (frame_slice : Option SliceDim) (indices : List ℕ)
    (r1 r2 : SliceDim) : List SliceDim :=
  match frame_slice with
  | some fs => [fs, r1, r2]
  | none => [SliceDim.idxs indices, r1, r2]

/-- the tail of DataScan.load once the indices, the frame slice, Nframes and
the ROI stage output ar are fixed (lines 282-359): the composite slice, the
four probe_n_load reads (mask with alternate key fmask, in the source order
data, mask, dark, flat), and the population of the per-frame view lists. -/
def loadCore (loader : PyLoader) (indices : List ℕ)
    (frame_slice : Option SliceDim) (Nframes : ℕ)
    (ar : (ℤ × ℤ) × SliceDim × SliceDim) : Except PyErr LoadedScan :=
  let sl : List SliceDim := buildSl frame_slice indices ar.2.1 ar.2.2
  match probe_n_load loader (some "data") sl none with
  | .error e => .error e
  | .ok data =>
    match probe_n_load loader (some "mask") sl (some "fmask") with
    | .error e => .error e
    | .ok mask =>
      match probe_n_load loader (some "dark") sl none with
      | .error e => .error e
      | .ok dark =>
        match probe_n_load loader (some "flat") sl none with
        | .error e => .error e
        | .ok flat =>
          match populate data mask dark flat Nframes indices with
          | .error e => .error e
          | .ok fl =>
            .ok ⟨data, mask, dark, flat, fl.datalist, fl.masklist,
                 fl.flatlist, fl.darklist, indices, Nframes, frame_slice,
                 ar.1⟩

/-- DataScan.load (data.py lines 190-359).  last defaults to
scan_info.shape[0]; assert Nframes > 0; then the index determination, the ROI
crop window (roiSliceStage) and the read/populate tail (loadCore). -/
def load (loader : PyLoader) (info : ScanInfo) (first : ℕ) (lastArg : Option ℕ)
    (roidim roictr : Option (ℤ × ℤ)) (mpi : MPIsplitArg) :
    Except PyErr LoadedScan :=
  let last := lastArg.getD info.shape.1
  if first < last then
    match loadIndicesStage first last mpi with
    | .error e => .error e
    | .ok (indices, frame_slice) =>
      loadCore loader indices frame_slice (last - first)
        (roiSliceStage (info.shape.2.1, info.shape.2.2) roidim roictr)
  else .error .assertionError

/-- the attribute state DataScan.__init__ (lines 102-110) leaves on a fresh
instance: data/mask/flat/dark are None and the four view lists are empty. -/
structure DataScanState where
  data : Option NArr
  mask : Option NArr
  dark : Option NArr
  flat : Option NArr
  datalist : List (Option NArr)
  masklist : List (Option NArr)
  flatlist : List (Option NArr)
  darklist : List (Option NArr)
  scan_info : ScanInfo
deriving DecidableEq

/-- DataScan.__init__ (lines 102-111): all arrays None, all lists empty;
scan_info is the default record updated from pars (supplied here already
merged). -/
def dataScanInit (info : ScanInfo) : DataScanState :=
  ⟨none, none, none, none, [], [], [], [], info⟩

/-- hasattr(self, 'data'): __init__ assigns self.data = None before anything
else can run, so on every constructed DataScan the attribute exists and the
check is True. -/
def pyHasattrData (_ : DataScanState) : Bool := true

/-- len(x) for an optional array: len(None) raises TypeError, len of a 0-d
array raises TypeError, otherwise the length of the first axis. -/
def pyLen : Option NArr → Except PyErr ℕ
  | none => .error .typeError
  | some (.d0 _) => .error .typeError
  | some (.d1 v) => .ok v.length
  | some (.d2 v) => .ok v.length
  | some (.d3 v) => .ok v.length

/-- bool(force_overwrite) for the Python value True / False / None. -/
def pyTruthyOptBool : Option Bool → Bool
  | some b => b
  | none => false

/-- `ans and ans.upper() != 'Y'`: an empty answer is falsy (defaults to
overwrite); otherwise any answer other than y/Y declines. -/
def ansDeclines (ans : String) : Bool :=
  decide (ans ≠ "") && decide (ans.toUpper ≠ "Y")

/-- the record io.h5write receives from DataScan.save. -/
structure H5Write where
  filename : String
  data : NArr
  mask : Option NArr
  flat : Option NArr
  dark : Option NArr
  scan_info : ScanInfo
deriving DecidableEq

/-- DataScan.save (lines 372-480), modelled for the single-process path
(parallel.MPIenabled = False, rank 0 = master): the gather loops of lines
401-435 are skipped, the early return for rank > 0 does not apply, and
data/mask are taken from self.data/self.mask (lines 446-448).
Steps in source order:
* `if not hasattr(self, 'data')` -- never True after __init__ (see
  pyHasattrData), so the RuntimeError of line 390 is unreachable;
* `if len(self.data) != len(self.datalist)` -- len(None) raises TypeError on a
  never-loaded scan; without MPI a mismatch only rebinds a local Nframes;
* the shape sanity check data.shape != scan_info.shape (RuntimeError);
* filename defaulting to scan_info.data_filename (os.path on None raises
  TypeError); clean_path is an external normalization, modelled as identity;
* the overwrite policy of lines 462-470 against os.path.exists (the Bool
  parameter fileExists) and raw_input (the String parameter ans):
  `if force_overwrite` overwrites with a warning; `elif not force_overwrite`
  raises RuntimeError -- note `not None` is also True; `elif force_overwrite
  is None` asks and raises only on a declining answer;
* the h5write record on success. -/
def save (ds : DataScanState) (fileExists : Bool) (ans : String)
    (filenameArg : Option String) (force_overwrite : Option Bool) :
    Except PyErr H5Write :=
  if ¬ pyHasattrData ds then .error .runtimeNoData
  else
    match pyLen ds.data with
    | .error e => .error e
    | .ok _ =>
      match ds.data with
      | none => .error .typeError
      | some dataArr =>
        if dataArr.shape ≠ [ds.scan_info.shape.1, ds.scan_info.shape.2.1,
            ds.scan_info.shape.2.2] then .error .runtimeShapeMismatch
        else
          match (match filenameArg with
                 | some f => Except.ok f
                 | none =>
                   match ds.scan_info.data_filename with
                   | some f => Except.ok f
                   | none => Except.error PyErr.typeError) with
          | .error e => .error e
          | .ok filename =>
            if fileExists then
              if pyTruthyOptBool force_overwrite then
                .ok ⟨filename, dataArr, ds.mask, ds.flat, ds.dark, ds.scan_info⟩
              else if ¬ pyTruthyOptBool force_overwrite then
                .error .runtimeFileExists
              else if force_overwrite = none then
                if ansDeclines ans then .error .runtimeCancelled
                else .ok ⟨filename, dataArr, ds.mask, ds.flat, ds.dark,
                          ds.scan_info⟩
              else .ok ⟨filename, dataArr, ds.mask, ds.flat, ds.dark,
                        ds.scan_info⟩
            else .ok ⟨filename, dataArr, ds.mask, ds.flat, ds.dark,
                      ds.scan_info⟩

/-- one entry of the iterable handed to the downstream consumer. -/
structure FramePackage where
  data : Option NArr
  mask : Option NArr
  index : ℕ
  position : ℤ × ℤ
deriving DecidableEq

/-- the batch package built by DataScan.as_data_package; the translated
metadata record (MT.as_meta of scan_info) is carried opaquely as the scan_info
itself plus the label that as_data_package writes into it. -/
structure DataPackage where
  label : String
  scan_info : ScanInfo
  iterable : List FramePackage
deriving DecidableEq

/-- Python list subscript access l[i] (IndexError when out of range;
nonnegative indices only, as used by the translated loops). -/
def pyGetItem (l : List (Option NArr)) (i : ℕ) : Except PyErr (Option NArr) :=
  match l[i]? with
  | some v => .ok v
  | none => .error .indexError

/-- the loop body of as_data_package (lines 493-499) over the listed frame
indices: data and mask from the per-frame view lists, the index itself, and
scan_info.positions[i] (positions = None raises TypeError, a short positions
list raises IndexError). -/
def packFrames (ds : DataScanState) : List ℕ → Except PyErr (List FramePackage)
  | [] => .ok []
  | i :: is =>
    match pyGetItem ds.datalist i with
    | .error e => .error e
    | .ok d =>
      match pyGetItem ds.masklist i with
      | .error e => .error e
      | .ok m =>
        match ds.scan_info.positions with
        | none => .error .typeError
        | some ps =>
          match ps[i]? with
          | none => .error .indexError
          | some p =>
            match packFrames ds is with
            | .error e => .error e
            | .ok rest => .ok (⟨d, m, i, p⟩ :: rest)

/-- DataScan.as_data_package (lines 482-501): stop clamps to Nframes (also
when None), then one FramePackage per index in range(start, stop). -/
def as_data_package (ds : DataScanState) (Nframes : ℕ) (label : String)
    (start : ℕ) (stopArg : Option ℕ) : Except PyErr DataPackage :=
  let stop := match stopArg with
    | none => Nframes
    | some s => if Nframes < s then Nframes else s
  match packFrames ds (pyRange start stop) with
  | .error e => .error e
  | .ok entries => .ok ⟨label, ds.scan_info, entries⟩

/-- PseudoDynamicDataSource.__init__ (data.py lines 590-596).  Its first
statement is `super(DynamicDataSource, self).__init__(filelist,
unique_scan_labels)`; the name DynamicDataSource is never bound at module
level (it only occurs inside a triple-quoted string further down), so the
lookup raises NameError before any attribute is assigned.  (Even with that
name repaired, the call passes two arguments to the three-argument
StaticDataSource.__init__, a TypeError, and the generator body calls
DS.load_data(), a method DataScan does not define, an AttributeError.) -/
def pseudoDynamicSourceNew (filelist : List String) (unique_scan_labels : Bool)
    (patterns_per_call : ℕ) : Except PyErr Unit :=
  .error .nameError

/-- the per-call window and counter arithmetic written in
PseudoDynamicDataSource.feed_data (lines 608-610): outdict =
DS.as_data_package(calls*ppc, (calls+1)*ppc); calls += 1; frame_count +=
len(outdict.iterable).  (The enclosing generator is unreachable in the source:
see pseudoDynamicSourceNew.) -/
def pseudoFeedWindow (ds : DataScanState) (Nframes : ℕ) (label : String)
    (ppc calls frame_count : ℕ) : Except PyErr (DataPackage × ℕ × ℕ) :=
  match as_data_package ds Nframes label (calls * ppc) (some ((calls + 1) * ppc)) with
  | .error e => .error e
  | .ok outdict => .ok (outdict, calls + 1, frame_count + outdict.iterable.length)

/-- the data_available update of PseudoDynamicDataSource.feed_data (line 619):
self.data_available = (self.frame_count < self.Nframes). -/
def pseudoDataAvailable (frame_count Nframes : ℕ) : Bool :=
  frame_count < Nframes

/-- a store with no keys at all: every read raises KeyError. -/
def emptyKeyLoader : PyLoader := fun _ _ => .error .keyError

/-- a loader whose every read raises IndexError (a store that rejects every
slice). -/
def indexErrLoader : PyLoader := fun _ _ => .error .indexError

/-- a store holding only the legacy key fmask (2-D), used against the
mask-to-fmask fallback. -/
def fmaskOnlyStore : List (String × NArr) := [("fmask", NArr.d2 [[5]])]

def fmaskOnlyLoader : PyLoader := dictLoader fmaskOnlyStore

/-- a store holding a 2-D mask, used against the dimension-dropping retry. -/
def mask2DStore : List (String × NArr) := [("mask", NArr.d2 [[1, 0], [0, 1]])]

def mask2DLoader : PyLoader := dictLoader mask2DStore

/-- one 10 x 10 frame whose (r, c) entry is 10*r + c, so crops are
recognizable. -/
def c3frame : List (List ℤ) :=
  (List.range 10).map (fun r => (List.range 10).map (fun c => 10 * r + c))

def c3store : List (String × NArr) :=
  [("data", NArr.d3 [c3frame]), ("mask", NArr.d3 [c3frame])]

def c3loader : PyLoader := dictLoader c3store

def c3info : ScanInfo := ⟨(1, 10, 10), "s", none, none⟩

/-- a two-frame store whose flat is a 3-D per-frame stack, used against the
per-frame view population. -/
def c5store : List (String × NArr) :=
  [("data", NArr.d3 [[[10]], [[20]]]),
   ("mask", NArr.d3 [[[1]], [[0]]]),
   ("flat", NArr.d3 [[[7]], [[8]]])]

def c5loader : PyLoader := dictLoader c5store

def c5info : ScanInfo := ⟨(2, 1, 1), "s", none, none⟩

def dummyLoadedScan : LoadedScan :=
  ⟨none, none, none, none, [], [], [], [], [], 0, none, (0, 0)⟩

/-- the state left by the two-frame demo load (extracted once so theorems can
name it). -/
def c5state : LoadedScan :=
  (load c5loader c5info 0 none none none MPIsplitArg.off).toOption.getD
    dummyLoadedScan

def c10info : ScanInfo := ⟨(2, 2, 2), "s", none, none⟩

def c7info : ScanInfo := ⟨(1, 1, 1), "s", some "default.ptyd", none⟩

/-- a consistently loaded single-frame scan (data shape equals
scan_info.shape), ready for save. -/
def c7ds : DataScanState :=
  ⟨some (NArr.d3 [[[3]]]), some (NArr.d3 [[[1]]]), none, none,
   [some (NArr.d2 [[3]])], [some (NArr.d2 [[1]])], [none], [none], c7info⟩

def c8info : ScanInfo :=
  ⟨(12, 1, 1), "s", none, some ((List.range 12).map (fun i => ((i : ℤ), 0)))⟩

/-- a loaded 12-frame scan (per-frame views filled on every index), used
against the chunked feed arithmetic. -/
def c8ds : DataScanState :=
  ⟨none, none, none, none,
   (List.range 12).map (fun i => some (NArr.d0 (i : ℤ))),
   (List.range 12).map (fun _ => some (NArr.d0 1)),
   List.replicate 12 none, List.replicate 12 none, c8info⟩

theorem probe_n_load_eq_noalt (loader : PyLoader) (k : String)
    (slc : List SliceDim) : probe_n_load loader (some k) slc none =
    probe_noalt loader k slc := by
  cases slc with
  | nil =>
    rcases h : loader k (some []) with a | e
    · simp [probe_n_load, probe_noalt, h]
    · cases e <;> simp [probe_n_load, probe_noalt, h]
  | cons d rest =>
    rcases h : loader k (some (d :: rest)) with a | e
    · simp [probe_n_load, probe_noalt, h]
    · cases e <;> simp [probe_n_load, probe_noalt, h]

theorem npCeilHalf_eq_ceil (x : ℤ) : npCeilHalf x = ⌈(x : ℚ) / 2⌉ := by
  have h1 : (⌈(x : ℚ) / 2⌉ : ℤ) = -⌊-((x : ℚ) / 2)⌋ := by
    rw [Int.floor_neg]; ring
  have h2 : -((x : ℚ) / 2) = ((-x : ℤ) : ℚ) / ((2 : ℕ) : ℚ) := by push_cast; ring
  rw [npCeilHalf, h1, h2, Rat.floor_intCast_div_natCast]
  norm_num

/-- C1 counterexample: against a store with no keys at all, probe_n_load of the
mandatory key "data" (called with no alternate key, exactly as at data.py line
345) returns ok None -- the Absent marker -- rather than propagating the
missing-key error: the KeyError handler of lines 303-310 has no special case
for the data key, so the claimed fatal propagation does not happen. -/
theorem c1_counterexample :
    probe_n_load emptyKeyLoader (some "data")
      [SliceDim.all, SliceDim.all, SliceDim.all] none = .ok none := by decide

/-- C1 (amended): on a missing-key error the loader retries exactly once with
the alternate key and the same slice when one is supplied; if the alternate
also misses, or no alternate was supplied, the result is Absent (None) for
every key -- including the mandatory key "data", which is not special-cased
(its absence only surfaces later, when the view population subscripts None). -/
theorem c1_key_fallback (loader : PyLoader) (k ak : String)
    (slc : List SliceDim) (a : NArr) :
    (loader k (some slc) = .error .keyError →
      probe_n_load loader (some k) slc none = .ok none) ∧
    (loader k (some slc) = .error .keyError → loader ak (some slc) = .ok a →
      probe_n_load loader (some k) slc (some ak) = .ok (some a)) ∧
    (loader k (some slc) = .error .keyError →
      loader ak (some slc) = .error .keyError →
      probe_n_load loader (some k) slc (some ak) = .ok none) := by
  refine ⟨fun h1 => ?_, fun h1 h2 => ?_, fun h1 h2 => ?_⟩
  · simp [probe_n_load, h1]
  · cases slc <;> simp [probe_n_load, probe_noalt, h1, h2]
  · cases slc <;> simp [probe_n_load, probe_noalt, h1, h2]

/-- C1 witness: a store holding only the legacy key fmask: requesting mask
falls back to fmask and returns its data; requesting dark (no alternate)
returns Absent. -/
theorem c1_key_fallback_witness :
    probe_n_load fmaskOnlyLoader (some "mask") [SliceDim.all, SliceDim.all]
      (some "fmask") = .ok (some (NArr.d2 [[5]])) ∧
    probe_n_load fmaskOnlyLoader (some "dark") [SliceDim.all, SliceDim.all]
      none = .ok none := by
  constructor
  · exact (c1_key_fallback fmaskOnlyLoader "mask" "fmask"
      [SliceDim.all, SliceDim.all] (NArr.d2 [[5]])).2.1 (by decide) (by decide)
  · exact (c1_key_fallback fmaskOnlyLoader "dark" "fmask"
      [SliceDim.all, SliceDim.all] (NArr.d2 [[5]])).1 (by decide)

/-- C2: on an index error the loader retries with the outermost slice
dimension dropped (one step of the recursion), signals the fatal exhaustion
outcome when the slice is already empty, succeeds after exactly one retry when
the shortened slice reads cleanly, and in particular returns a 2-D stored mask
cropped only by the trailing ROI components when a 3-component slice was
requested. -/
theorem c2_dimension_fallback (loader : PyLoader) (k : String)
    (alt : Option String) (d : SliceDim) (rest : List SliceDim) (a : NArr) :
    (loader k (some (d :: rest)) = .error .indexError →
      probe_n_load loader (some k) (d :: rest) alt = probe_noalt loader k rest) ∧
    (loader k (some []) = .error .indexError →
      probe_n_load loader (some k) [] alt = .error .sliceExhausted) ∧
    (loader k (some (d :: rest)) = .error .indexError →
      loader k (some rest) = .ok a →
      probe_n_load loader (some k) (d :: rest) alt = .ok (some a)) ∧
    probe_n_load mask2DLoader (some "mask")
      [SliceDim.rangeD 0 2, SliceDim.rangeD 0 1, SliceDim.all] (some "fmask") =
      .ok (some (NArr.d2 [[1, 0]])) := by
  refine ⟨fun h1 => ?_, fun h1 => ?_, fun h1 h2 => ?_, by decide⟩
  · simp [probe_n_load, h1]
  · simp [probe_n_load, h1]
  · cases rest <;> simp [probe_n_load, probe_noalt, h1, h2]

/-- C2 witness: the 2-D mask store exercises the one-retry success conjunct,
and the always-IndexError loader exercises the exhaustion conjunct. -/
theorem c2_dimension_fallback_witness :
    probe_n_load mask2DLoader (some "mask")
      [SliceDim.rangeD 0 2, SliceDim.rangeD 0 1, SliceDim.all] none =
      .ok (some (NArr.d2 [[1, 0]])) ∧
    probe_n_load indexErrLoader (some "data") [] none =
      .error .sliceExhausted := by
  constructor
  · exact (c2_dimension_fallback mask2DLoader "mask" none (SliceDim.rangeD 0 2)
      [SliceDim.rangeD 0 1, SliceDim.all] (NArr.d2 [[1, 0]])).2.2.1
      (by decide) (by decide)
  · exact (c2_dimension_fallback indexErrLoader "data" none SliceDim.all []
      (NArr.d0 0)).2.1 (by decide)

/-- C6: on a DataScan on which load has never run, save fails fatally.  The
dedicated guard of line 389 never fires (hasattr is True because __init__
already set self.data = None), but the very next statement, len(self.data) at
line 396, raises TypeError on None, so save refuses to proceed whatever the
other arguments are. -/
theorem c6_save_never_loaded (info : ScanInfo) (fileExists : Bool)
    (ans : String) (filenameArg : Option String)
    (force_overwrite : Option Bool) :
    save (dataScanInit info) fileExists ans filenameArg force_overwrite =
      .error .typeError := rfl

/-- C7: on an existing destination, Force (True) overwrites and Refuse (False)
fails fatally as claimed; but Ask (None) also fails fatally without consulting
the answer -- bool(None) is False, so `elif not force_overwrite` fires and the
`force_overwrite is None` branch of line 467 is unreachable, contradicting the
docstring of lines 380-382.  The answer string is universally quantified: even
an approving "Y" cannot prevent the error. -/
theorem c7_overwrite_policy (ans : String) :
    save c7ds true ans (some "out.ptyd") none = .error .runtimeFileExists ∧
    save c7ds true ans (some "out.ptyd") (some false) =
      .error .runtimeFileExists ∧
    save c7ds true ans (some "out.ptyd") (some true) =
      .ok ⟨"out.ptyd", NArr.d3 [[[3]]], some (NArr.d3 [[[1]]]), none, none,
           c7info⟩ := ⟨rfl, rfl, rfl⟩

/-- C8: the chunked feed logic as written -- window length 5, 5, 2 over a
12-frame scan with chunk size 5, call counter 1, 2, 3 and delivered counter 5,
10, 12, available exactly until the delivered count reaches 12 -- but the
class cannot execute: its constructor raises NameError on the undefined
DynamicDataSource before any window is ever produced. -/
theorem c8_chunked_feed :
    pseudoDynamicSourceNew ["scan.ptyd"] true 5 = .error .nameError ∧
    (pseudoFeedWindow c8ds 12 "lab" 5 0 0).toOption.map
      (fun r => (r.1.iterable.length, r.2.1, r.2.2)) = some (5, 1, 5) ∧
    (pseudoFeedWindow c8ds 12 "lab" 5 1 5).toOption.map
      (fun r => (r.1.iterable.length, r.2.1, r.2.2)) = some (5, 2, 10) ∧
    (pseudoFeedWindow c8ds 12 "lab" 5 2 10).toOption.map
      (fun r => (r.1.iterable.length, r.2.1, r.2.2)) = some (2, 3, 12) ∧
    pseudoDataAvailable 5 12 = true ∧
    pseudoDataAvailable 10 12 = true ∧
    pseudoDataAvailable 12 12 = false := by decide

/-- C10: the loader attached for source None is total on every key -- it can
never raise a missing-key error; it returns ones of shape scan_info.shape for
the keys flat and mask and zeros of that shape for every other key, and with a
slice specification it returns that buffer sliced (failing only as numpy
slicing fails, with an index error). -/
theorem c10_none_source_loader (info : ScanInfo) (key : String)
    (slc : Option (List SliceDim)) :
    (noneLoader info key none =
      .ok (NArr.fill info.shape
        (if key = "flat" ∨ key = "mask" then 1 else 0))) ∧
    (∀ s r,
      (NArr.fill info.shape
        (if key = "flat" ∨ key = "mask" then 1 else 0)).slice s = some r →
      noneLoader info key (some s) = .ok r) ∧
    (noneLoader info key slc ≠ .error .keyError) ∧
    (∀ e, noneLoader info key slc = .error e → e = .indexError) := by
  have hbuf : (if key = "flat" ∨ key = "mask" then NArr.fill info.shape 1
      else NArr.fill info.shape 0) =
      NArr.fill info.shape (if key = "flat" ∨ key = "mask" then 1 else 0) := by
    by_cases hk : key = "flat" ∨ key = "mask" <;> simp [hk]
  refine ⟨?_, fun s r h => ?_, ?_, fun e he => ?_⟩
  · simp [noneLoader, hbuf]
  · simp [noneLoader, hbuf, h]
  · cases slc with
    | none => simp [noneLoader]
    | some s =>
      simp only [noneLoader, hbuf]
      cases h2 : (NArr.fill info.shape
          (if key = "flat" ∨ key = "mask" then 1 else 0)).slice s <;> simp
  · cases slc with
    | none => simp [noneLoader] at he
    | some s =>
      simp only [noneLoader, hbuf] at he
      cases h2 : (NArr.fill info.shape
          (if key = "flat" ∨ key = "mask" then 1 else 0)).slice s with
      | none =>
        rw [h2] at he
        simp only [Except.error.injEq] at he
        exact he.symm
      | some r =>
        rw [h2] at he
        cases he

/-- C10 witness: the empty-source loader at a concrete shape: ones for mask,
zeros for data sliced down to the first frame. -/
theorem c10_none_source_loader_witness :
    noneLoader c10info "mask" none = .ok (NArr.fill (2, 2, 2) 1) ∧
    noneLoader c10info "data"
      (some [SliceDim.rangeD 0 1, SliceDim.all, SliceDim.all]) =
      .ok (NArr.d3 [[[0, 0], [0, 0]]]) := by
  constructor
  · exact ((c10_none_source_loader c10info "mask" none).1).trans (by decide)
  · exact (c10_none_source_loader c10info "data" none).2.1
      [SliceDim.rangeD 0 1, SliceDim.all, SliceDim.all]
      (NArr.d3 [[[0, 0], [0, 0]]]) (by decide)

theorem loadIndicesStage_auto_err (first last i0 : ℕ) (rest : List ℕ)
    (h : (i0 :: rest) ≠ pyRange i0 ((i0 :: rest).getLastD 0 + 1)) :
    loadIndicesStage first last (.auto (i0 :: rest)) =
      .error .assertionError := by
  unfold loadIndicesStage
  dsimp only
  rw [if_neg h]

/-- C4: in automatic-partition mode, an assigned index list that is not the
contiguous ascending range from its first to its last element trips the
assert of data.py line 246 and load fails with AssertionError -- uniformly in
the loader, i.e. before any data is read. -/
theorem c4_contiguous_partition (loader : PyLoader) (info : ScanInfo)
    (first : ℕ) (lastArg : Option ℕ) (roidim roictr : Option (ℤ × ℤ))
    (assigned : List ℕ) (h1 : assigned ≠ [])
    (h2 : assigned ≠ pyRange assigned.headI (assigned.getLastD 0 + 1)) :
    load loader info first lastArg roidim roictr (.auto assigned) =
      .error .assertionError := by
  obtain ⟨i0, rest, rfl⟩ := List.exists_cons_of_ne_nil h1
  simp only [load]
  split
  · rw [loadIndicesStage_auto_err first _ i0 rest h2]
  · rfl

/-- C4 witness: the gapped assignment [0, 2, 3] is rejected whatever the
store contains. -/
theorem c4_contiguous_partition_witness :
    load c5loader c5info 0 none none none (MPIsplitArg.auto [0, 2, 3]) =
      .error .assertionError :=
  c4_contiguous_partition c5loader c5info 0 none none none [0, 2, 3]
    (by decide) (by decide)

/-- C3: the ROI crop window.  The integer bounds load computes are exactly the
ceiling expressions ceil(ctr - dim/2) and ceil(ctr + dim/2) of the claim (and
the window is therefore exactly dim wide); when no center is requested the ROI
stage behaves identically to one centered at dpsize // 2 (generic); and end to
end on a 10 x 10 frame whose (r, c) entry is 10r + c, size (4,4) at center
(5,5) -- also with the center left to default -- crops rows and columns [3:7),
while size (3,3) crops [4:7). -/
theorem c3_roi_window :
    (∀ c d : ℤ,
      npCeilHalf (2 * c - d) = ⌈(c : ℚ) - (d : ℚ) / 2⌉ ∧
      npCeilHalf (2 * c + d) = ⌈(c : ℚ) + (d : ℚ) / 2⌉ ∧
      npCeilHalf (2 * c + d) - npCeilHalf (2 * c - d) = d) ∧
    (∀ (H W : ℕ) (rd : ℤ × ℤ),
      roiSliceStage (H, W) (some rd) none =
        roiSliceStage (H, W) (some rd) (some ((H : ℤ) / 2, (W : ℤ) / 2))) ∧
    load c3loader c3info 0 none (some (4, 4)) none MPIsplitArg.off =
      load c3loader c3info 0 none (some (4, 4)) (some (5, 5))
        MPIsplitArg.off ∧
    (load c3loader c3info 0 none (some (4, 4)) (some (5, 5))
        MPIsplitArg.off).toOption.map LoadedScan.data =
      some (some (NArr.d3 [[[33, 34, 35, 36], [43, 44, 45, 46],
        [53, 54, 55, 56], [63, 64, 65, 66]]])) ∧
    (load c3loader c3info 0 none (some (3, 3)) (some (5, 5))
        MPIsplitArg.off).toOption.map LoadedScan.data =
      some (some (NArr.d3 [[[44, 45, 46], [54, 55, 56], [64, 65, 66]]])) := by
  refine ⟨fun c d => ⟨?_, ?_, ?_⟩, fun H W rd => rfl, by decide, by decide,
    by decide⟩
  · rw [npCeilHalf_eq_ceil]
    congr 1
    push_cast
    ring
  · rw [npCeilHalf_eq_ceil]
    congr 1
    push_cast
    ring
  · rw [npCeilHalf_eq_ceil, npCeilHalf_eq_ceil]
    have h : ((2 * c + d : ℤ) : ℚ) / 2 = ((2 * c - d : ℤ) : ℚ) / 2 + (d : ℚ) := by
      push_cast
      ring
    rw [h, Int.ceil_add_int]
    ring

theorem pySetItem_ok (l : List (Option NArr)) (i : ℕ) (v : Option NArr)
    (out : List (Option NArr)) (h : pySetItem l i v = .ok out) :
    i < l.length ∧ out = l.set i v := by
  unfold pySetItem at h
  by_cases hb : i < l.length
  · rw [if_pos hb] at h
    cases h
    exact ⟨hb, rfl⟩
  · rw [if_neg hb] at h
    cases h

theorem popStep_ok (data mask dark flat : Option NArr) (st : FrameLists)
    (k i : ℕ) (res : FrameLists)
    (h : popStep data mask dark flat st k i = .ok res) :
    ∃ dArr dv mArr mv,
      data = some dArr ∧ dArr.index k = .ok dv ∧ mask = some mArr ∧
      (if mArr.ndim = 2 then Except.ok mArr else mArr.index k) = .ok mv ∧
      i < st.datalist.length ∧ i < st.masklist.length ∧
      i < st.flatlist.length ∧ i < st.darklist.length ∧
      res = ⟨st.datalist.set i (some dv), st.masklist.set i (some mv),
             st.flatlist.set i flat, st.darklist.set i dark⟩ := by
  unfold popStep at h
  cases data with
  | none => cases h
  | some dArr =>
  dsimp only at h
  cases hdv : dArr.index k with
  | error e => rw [hdv] at h; cases h
  | ok dv =>
  rw [hdv] at h
  dsimp only at h
  cases hdl : pySetItem st.datalist i (some dv) with
  | error e => rw [hdl] at h; cases h
  | ok dl =>
  rw [hdl] at h
  dsimp only at h
  cases mask with
  | none => cases h
  | some mArr =>
  dsimp only at h
  cases hmv : (if mArr.ndim = 2 then Except.ok mArr else mArr.index k) with
  | error e => rw [hmv] at h; cases h
  | ok mv =>
  rw [hmv] at h
  dsimp only at h
  cases hml : pySetItem st.masklist i (some mv) with
  | error e => rw [hml] at h; cases h
  | ok ml =>
  rw [hml] at h
  dsimp only at h
  cases hfl : pySetItem st.flatlist i flat with
  | error e => rw [hfl] at h; cases h
  | ok fl =>
  rw [hfl] at h
  dsimp only at h
  cases hkl : pySetItem st.darklist i dark with
  | error e => rw [hkl] at h; cases h
  | ok kl =>
  rw [hkl] at h
  dsimp only at h
  cases h
  obtain ⟨hb1, he1⟩ := pySetItem_ok _ _ _ _ hdl
  obtain ⟨hb2, he2⟩ := pySetItem_ok _ _ _ _ hml
  obtain ⟨hb3, he3⟩ := pySetItem_ok _ _ _ _ hfl
  obtain ⟨hb4, he4⟩ := pySetItem_ok _ _ _ _ hkl
  exact ⟨dArr, dv, mArr, mv, rfl, hdv, rfl, hmv, hb1, hb2, hb3, hb4,
    by rw [he1, he2, he3, he4]⟩

theorem popLoop_ok_lengths (data mask dark flat : Option NArr)
    (ps : List (ℕ × ℕ)) : ∀ (st res : FrameLists),
    popLoop data mask dark flat st ps = .ok res →
    res.datalist.length = st.datalist.length ∧
    res.masklist.length = st.masklist.length ∧
    res.flatlist.length = st.flatlist.length ∧
    res.darklist.length = st.darklist.length := by
  induction ps with
  | nil =>
    intro st res h
    unfold popLoop at h
    cases h
    exact ⟨rfl, rfl, rfl, rfl⟩
  | cons p rest ih =>
    obtain ⟨k, i⟩ := p
    intro st res h
    unfold popLoop at h
    cases hstep : popStep data mask dark flat st k i with
    | error e => rw [hstep] at h; cases h
    | ok st1 =>
      rw [hstep] at h
      obtain ⟨dArr, dv, mArr, mv, _, _, _, _, _, _, _, _, hres⟩ :=
        popStep_ok data mask dark flat st k i st1 hstep
      have hl := ih st1 res h
      subst hres
      simp only [List.length_set] at hl
      exact hl

theorem popLoop_ok_not_mem (data mask dark flat : Option NArr)
    (ps : List (ℕ × ℕ)) : ∀ (st res : FrameLists),
    popLoop data mask dark flat st ps = .ok res →
    ∀ i, i ∉ ps.map Prod.snd →
    res.datalist[i]? = st.datalist[i]? ∧
    res.masklist[i]? = st.masklist[i]? ∧
    res.flatlist[i]? = st.flatlist[i]? ∧
    res.darklist[i]? = st.darklist[i]? := by
  induction ps with
  | nil =>
    intro st res h i _
    unfold popLoop at h
    cases h
    exact ⟨rfl, rfl, rfl, rfl⟩
  | cons p rest ih =>
    obtain ⟨k, j⟩ := p
    intro st res h i hi
    rw [List.map_cons, List.mem_cons] at hi
    push_neg at hi
    obtain ⟨hij, hirest⟩ := hi
    unfold popLoop at h
    cases hstep : popStep data mask dark flat st k j with
    | error e => rw [hstep] at h; cases h
    | ok st1 =>
      rw [hstep] at h
      obtain ⟨dArr, dv, mArr, mv, _, _, _, _, _, _, _, _, hres⟩ :=
        popStep_ok data mask dark flat st k j st1 hstep
      have hrec := ih st1 res h i hirest
      subst hres
      simp only [List.getElem?_set_ne (fun e => hij e.symm)] at hrec
      exact hrec

theorem popLoop_ok_mem (data mask dark flat : Option NArr)
    (ps : List (ℕ × ℕ)) : ∀ (st res : FrameLists),
    popLoop data mask dark flat st ps = .ok res →
    (ps.map Prod.snd).Nodup →
    ∀ k i, (k, i) ∈ ps →
    (∃ dArr dv, data = some dArr ∧ dArr.index k = .ok dv ∧
      res.datalist[i]? = some (some dv)) ∧
    (∃ mArr mv, mask = some mArr ∧
      (if mArr.ndim = 2 then Except.ok mArr else mArr.index k) = .ok mv ∧
      res.masklist[i]? = some (some mv)) ∧
    res.flatlist[i]? = some flat ∧ res.darklist[i]? = some dark := by
  induction ps with
  | nil =>
    intro st res _ _ k i hmem
    exact absurd hmem (List.not_mem_nil _)
  | cons p rest ih =>
    obtain ⟨k0, i0⟩ := p
    intro st res h hnd k i hmem
    rw [List.map_cons, List.nodup_cons] at hnd
    obtain ⟨hhead, htail⟩ := hnd
    unfold popLoop at h
    cases hstep : popStep data mask dark flat st k0 i0 with
    | error e => rw [hstep] at h; cases h
    | ok st1 =>
      rw [hstep] at h
      obtain ⟨dArr, dv, mArr, mv, hd, hdv, hm, hmv, hb1, hb2, hb3, hb4, hres⟩ :=
        popStep_ok data mask dark flat st k0 i0 st1 hstep
      rcases List.mem_cons.mp hmem with heq | hmem2
      · obtain ⟨rfl, rfl⟩ : k = k0 ∧ i = i0 := by
          rw [Prod.mk.injEq] at heq
          exact heq
        have hpres := popLoop_ok_not_mem data mask dark flat rest st1 res h i hhead
        subst hres
        dsimp only at hpres
        refine ⟨⟨dArr, dv, hd, hdv, ?_⟩, ⟨mArr, mv, hm, hmv, ?_⟩, ?_, ?_⟩
        · rw [hpres.1]
          simp [List.getElem?_set_self', hb1]
        · rw [hpres.2.1]
          simp [List.getElem?_set_self', hb2]
        · rw [hpres.2.2.1]
          simp [List.getElem?_set_self', hb3]
        · rw [hpres.2.2.2]
          simp [List.getElem?_set_self', hb4]
      · exact ih st1 res h htail k i hmem2

theorem loadCore_ok (loader : PyLoader) (indices : List ℕ)
    (frame_slice : Option SliceDim) (Nframes : ℕ)
    (ar : (ℤ × ℤ) × SliceDim × SliceDim) (st : LoadedScan)
    (h : loadCore loader indices frame_slice Nframes ar = .ok st) :
    ∃ fl, populate st.data st.mask st.dark st.flat st.Nframes st.indices =
        .ok fl ∧
      st.datalist = fl.datalist ∧ st.masklist = fl.masklist ∧
      st.flatlist = fl.flatlist ∧ st.darklist = fl.darklist := by
  unfold loadCore at h
  dsimp only at h
  cases hD : probe_n_load loader (some "data")
      (buildSl frame_slice indices ar.2.1 ar.2.2) none with
  | error e => rw [hD] at h; cases h
  | ok data =>
  rw [hD] at h
  dsimp only at h
  cases hM : probe_n_load loader (some "mask")
      (buildSl frame_slice indices ar.2.1 ar.2.2) (some "fmask") with
  | error e => rw [hM] at h; cases h
  | ok mask =>
  rw [hM] at h
  dsimp only at h
  cases hK : probe_n_load loader (some "dark")
      (buildSl frame_slice indices ar.2.1 ar.2.2) none with
  | error e => rw [hK] at h; cases h
  | ok dark =>
  rw [hK] at h
  dsimp only at h
  cases hF : probe_n_load loader (some "flat")
      (buildSl frame_slice indices ar.2.1 ar.2.2) none with
  | error e => rw [hF] at h; cases h
  | ok flat =>
  rw [hF] at h
  dsimp only at h
  cases hP : populate data mask dark flat Nframes indices with
  | error e => rw [hP] at h; cases h
  | ok fl =>
  rw [hP] at h
  dsimp only at h
  cases h
  exact ⟨fl, hP, rfl, rfl, rfl, rfl⟩

theorem load_ok_populate (loader : PyLoader) (info : ScanInfo) (first : ℕ)
    (lastArg : Option ℕ) (roidim roictr : Option (ℤ × ℤ)) (mpi : MPIsplitArg)
    (st : LoadedScan)
    (h : load loader info first lastArg roidim roictr mpi = .ok st) :
    ∃ fl, populate st.data st.mask st.dark st.flat st.Nframes st.indices =
        .ok fl ∧
      st.datalist = fl.datalist ∧ st.masklist = fl.masklist ∧
      st.flatlist = fl.flatlist ∧ st.darklist = fl.darklist := by
  unfold load at h
  dsimp only at h
  split at h
  · split at h
    · cases h
    · exact loadCore_ok _ _ _ _ _ _ h
  · cases h

/-- C5 counterexample: the two-frame demo store keeps a 3-D flat stack; after
a successful whole-range load, flatlist[0] holds the entire 3-D flat array --
the per-frame 3-D indexing of lines 358-359 is commented out in the source --
whereas the claim requires the 2-D per-frame slice flat[0]. -/
theorem c5_counterexample :
    (load c5loader c5info 0 none none none MPIsplitArg.off).toOption.map
        (fun st => (st.flat, st.flatlist[0]?)) =
      some (some (NArr.d3 [[[7]], [[8]]]),
            some (some (NArr.d3 [[[7]], [[8]]]))) ∧
    (NArr.d3 [[[7]], [[8]]]).ndim = 3 ∧
    (NArr.d3 [[[7]], [[8]]]).index 0 = .ok (NArr.d2 [[7]]) ∧
    (some (NArr.d3 [[[7]], [[8]]]) : Option NArr) ≠ some (NArr.d2 [[7]]) := by
  decide

/-- C5 (amended): after every successful load, the four per-frame view lists
have length Nframes; every index outside the owned set remains Absent (None);
and for the k-th owned index i (ownership without duplicates), datalist[i] is
the k-th frame data[k], masklist[i] is the whole mask when it is 2-D and the
per-frame slice mask[k] otherwise, while flatlist[i] and darklist[i] always
receive the whole loaded flat/dark object (Absent when the key was absent),
regardless of its dimensionality. -/
theorem c5_view_lists (loader : PyLoader) (info : ScanInfo) (first : ℕ)
    (lastArg : Option ℕ) (roidim roictr : Option (ℤ × ℤ)) (mpi : MPIsplitArg)
    (st : LoadedScan)
    (h : load loader info first lastArg roidim roictr mpi = .ok st) :
    (st.datalist.length = st.Nframes ∧ st.masklist.length = st.Nframes ∧
     st.flatlist.length = st.Nframes ∧ st.darklist.length = st.Nframes) ∧
    (∀ i, i < st.Nframes → i ∉ st.indices →
      st.datalist[i]? = some none ∧ st.masklist[i]? = some none ∧
      st.flatlist[i]? = some none ∧ st.darklist[i]? = some none) ∧
    (st.indices.Nodup → ∀ k i, st.indices[k]? = some i →
      (∃ dArr dv, st.data = some dArr ∧ dArr.index k = .ok dv ∧
        st.datalist[i]? = some (some dv)) ∧
      (∃ mArr mv, st.mask = some mArr ∧
        (if mArr.ndim = 2 then Except.ok mArr else mArr.index k) = .ok mv ∧
        st.masklist[i]? = some (some mv)) ∧
      st.flatlist[i]? = some st.flat ∧ st.darklist[i]? = some st.dark) := by
  obtain ⟨fl, hpop, hdl, hml, hfl2, hkl⟩ :=
    load_ok_populate loader info first lastArg roidim roictr mpi st h
  unfold populate at hpop
  have hlen := popLoop_ok_lengths _ _ _ _ _ _ _ hpop
  refine ⟨⟨?_, ?_, ?_, ?_⟩, ?_, ?_⟩
  · rw [hdl, hlen.1, List.length_replicate]
  · rw [hml, hlen.2.1, List.length_replicate]
  · rw [hfl2, hlen.2.2.1, List.length_replicate]
  · rw [hkl, hlen.2.2.2, List.length_replicate]
  · intro i hiN hi
    have hpres := popLoop_ok_not_mem _ _ _ _ _ _ _ hpop i
      (by rwa [List.enum_map_snd])
    rw [hdl, hml, hfl2, hkl]
    rw [hpres.1, hpres.2.1, hpres.2.2.1, hpres.2.2.2]
    simp [List.getElem?_replicate, hiN]
  · intro hnd k i hki
    have hmem : (k, i) ∈ st.indices.enum := List.mem_enum_iff_getElem?.mpr hki
    have hnd2 : (st.indices.enum.map Prod.snd).Nodup := by
      rwa [List.enum_map_snd]
    have hm := popLoop_ok_mem _ _ _ _ _ _ _ hpop hnd2 k i hmem
    rw [hdl, hml, hfl2, hkl]
    exact hm

/-- C5 witness: the amended statement applied to the two-frame demo load,
whose assignment [0, 1] is duplicate-free: the lists have length 2, frame 1
carries data[1], and flatlist[0] carries the whole loaded flat. -/
theorem c5_view_lists_witness :
    load c5loader c5info 0 none none none MPIsplitArg.off = .ok c5state ∧
    c5state.datalist.length = c5state.Nframes ∧
    c5state.flatlist[0]? = some c5state.flat ∧
    c5state.datalist[1]? = some (some (NArr.d2 [[20]])) := by
  have h : load c5loader c5info 0 none none none MPIsplitArg.off =
      .ok c5state := by decide
  have main := c5_view_lists c5loader c5info 0 none none none
    MPIsplitArg.off c5state h
  refine ⟨h, main.1.1, ?_, by decide⟩
  exact (main.2.2 (by decide) 0 0 (by decide)).2.2.1
